import Mathlib

/-!
Verification of the recipe-sharing REST service (Anas-hessein/endpointer-v2).

The repository ships several near-duplicate variants of the same service:
* `api/index.js` — the main serverless handler (MongoDB-backed, bcrypt, JWT);
* an Express MongoDB variant (same logic route by route);
* an in-memory Express demo variant (`users`/`recipes` arrays, plain-text
  passwords, no password-strength check);
* standalone serverless endpoints `api/auth-login.js`, `api/recipes.js`,
  and a standalone register handler.

This file shallowly embeds the handlers of these variants and proves or
refutes the specified properties of the authentication and
ownership-authorization core.  External primitives (bcrypt, JWT) are
abstracted as explicit function parameters: `bhash : String → String` for
the salted password hash (salt folded into the abstraction) and
`verify : String → Option Claim` for JWT verification under the server
secret (`none` covers invalid signature, malformed token and expiry).
-/

namespace RecipeApi

/-- A stored user record (`UserSchema` in `api/index.js`): Mongo `_id`,
unique `username`, and the stored `password` field (which the persistent
variants fill with a bcrypt hash). -/
structure User where
  id : String
  username : String
  password : String
  deriving Repr, DecidableEq

/-- A stored recipe record (`RecipeSchema` in `api/index.js`). -/
structure Recipe where
  id : String
  title : String
  ingredients : List String
  instructions : String
  cookingTime : Option Int
  servings : Option Int
  createdBy : String
  createdAt : Nat
  deriving Repr, DecidableEq

/-- The persistent state behind the main handler: the Credential Store
(`users`) and the Resource Store (`recipes`). -/
structure Store where
  users : List User
  recipes : List Recipe
  deriving Repr, DecidableEq

/-- The identity claim carried by a verified JWT
(`jwt.sign({ userId, username }, ...)` in `api/index.js`). -/
structure Claim where
  userId : String
  username : String
  deriving Repr, DecidableEq

/-- Response bodies the embedded handlers produce. -/
inductive Body where
  | err (msg : String)
  | registered (userId : String)
  | loggedIn (token : String) (userId : String) (username : String)
  | recipeList (recipes : List Recipe) (page limit : Int) (total : Nat) (pages : Int)
  | recipeOne (r : Recipe)
  | recipeCreated (r : Recipe)
  | recipeUpdated (r : Recipe)
  | recipeDeleted
  | token (t : String)
  | recipesRaw (recipes : List Recipe)
  | registeredMsg
  deriving Repr, DecidableEq

/-- An HTTP response: status code plus JSON body. -/
structure Response where
  status : Nat
  body : Body
  deriving Repr, DecidableEq

/-- Splitting a character list at a separator, the way the JS
`String.split` method does it: consecutive separators produce empty
chunks. -/
def splitAtChar (sep : Char) : List Char → List (List Char)
  | [] => [[]]
  | c :: rest =>
    match splitAtChar sep rest with
    | [] => if c = sep then [[], []] else [[c]]
    | w :: ws => if c = sep then [] :: w :: ws else (c :: w) :: ws

/-- Bearer extraction, `authHeader && authHeader.split(...)` indexed at 1
in `authenticateToken`: take the second space-separated part of the
`Authorization` header; a missing
header, a header without a second space-separated part, or an empty
second part (all falsy in JS) yield `none`. -/
def extractBearer (authHeader : Option String) : Option String :=
  match authHeader with
  | none => none
  | some h =>
    match (splitAtChar ' ' h.toList).get? 1 with
    | none => none
    | some t => if t = [] then none else some (String.mk t)

/-- Authentication failures of `authenticateToken` in `api/index.js`. -/
inductive AuthErr where
  | missing
  | invalid
  deriving Repr, DecidableEq

instance : DecidableEq (Except AuthErr Claim) := fun a b =>
  match a, b with
  | .ok x, .ok y =>
    if h : x = y then isTrue (by rw [h]) else isFalse (by simp [h])
  | .error x, .error y =>
    if h : x = y then isTrue (by rw [h]) else isFalse (by simp [h])
  | .ok _, .error _ => isFalse (by simp)
  | .error _, .ok _ => isFalse (by simp)

/-- Function `authenticateToken` from `api/index.js`: extract the bearer token and
verify it; throws `Access token required` when absent, `Invalid token`
when verification fails. -/
def authenticateToken (verify : String → Option Claim) (authHeader : Option String) :
    Except AuthErr Claim :=
  match extractBearer authHeader with
  | none => .error .missing
  | some t =>
    match verify t with
    | none => .error .invalid
    | some c => .ok c

/-- The response the catch-all of the main handler produces for the two
authentication errors (`api/index.js` lines 313–315): both map to 401. -/
def authErrResponse (e : AuthErr) : Response :=
  match e with
  | .missing => ⟨401, .err "Access token required"⟩
  | .invalid => ⟨401, .err "Invalid token"⟩

/-- Validity test `mongoose.Types.ObjectId.isValid`, modelled on its principal case:
a 24-character hexadecimal string. -/
def isValidObjectId (s : String) : Bool :=
  s.length = 24 && s.toList.all (fun c => c.isDigit || ('a' ≤ c && c ≤ 'f') || ('A' ≤ c && c ≤ 'F'))

/-- Route `POST /api/auth/register` from `api/index.js` (lines 138–162).
`newId` models the Mongo-generated `_id` of the new document. -/
def register (bhash : String → String) (st : Store) (username password : String)
    (newId : String) : Response × Store :=
  if username = "" || password = "" then
    (⟨400, .err "Username and password are required"⟩, st)
  else if password.length < 6 then
    (⟨400, .err "Password must be at least 6 characters"⟩, st)
  else
    match st.users.find? (fun u => u.username = username) with
    | some _ => (⟨400, .err "Username already exists"⟩, st)
    | none =>
      let u : User := ⟨newId, username, bhash password⟩
      (⟨201, .registered newId⟩, { st with users := st.users ++ [u] })

/-- Route `POST /api/auth/login` from `api/index.js` (lines 164–188).
`sign userId username` models `jwt.sign({userId, username}, secret)`;
`bcrypt.compare p h` is modelled as `h = bhash p`. -/
def login (bhash : String → String) (sign : String → String → String)
    (st : Store) (username password : String) : Response :=
  if username = "" || password = "" then
    ⟨400, .err "Username and password are required"⟩
  else
    match st.users.find? (fun u => u.username = username) with
    | none => ⟨401, .err "Invalid credentials"⟩
    | some u =>
      if u.password = bhash password then
        ⟨200, .loggedIn (sign u.id u.username) u.id u.username⟩
      else
        ⟨401, .err "Invalid credentials"⟩

/-- The recipe ordering used by `GET /api/recipes`:
`.sort({ createdAt: -1 })`, creation time descending. -/
def createdAtDesc (a b : Recipe) : Prop := b.createdAt ≤ a.createdAt

instance : DecidableRel createdAtDesc := fun a b => Nat.decLe b.createdAt a.createdAt

instance : IsTotal Recipe createdAtDesc := ⟨fun a b => Nat.le_total b.createdAt a.createdAt⟩

instance : IsTrans Recipe createdAtDesc :=
  ⟨fun _ _ _ h1 h2 => Nat.le_trans h2 h1⟩

/-- Default rule `parseInt(q) || d`: an absent or unparsable query parameter (`none`)
and the falsy value `0` both fall back to the default. -/
def queryOrDefault (q : Option Int) (d : Int) : Int :=
  match q with
  | none => d
  | some v => if v = 0 then d else v

/-- Integer form of `Math.ceil(a / b)` (`b ≠ 0`). -/
def jsCeilDiv (a b : Int) : Int := -((-a).fdiv b)

/-- The payload of the `GET /api/recipes` response. -/
structure ListResult where
  recipes : List Recipe
  page : Int
  limit : Int
  total : Nat
  pages : Int
  deriving Repr, DecidableEq

/-- Route `GET /api/recipes` from `api/index.js` (lines 191–212): paginate all
stored recipes sorted by `createdAt` descending;
`pages = Math.ceil(total / limit)`. -/
def listRecipes (st : Store) (pageQ limitQ : Option Int) : ListResult :=
  let page := queryOrDefault pageQ 1
  let limit := queryOrDefault limitQ 10
  let skip := (page - 1) * limit
  let total := st.recipes.length
  let sorted := st.recipes.insertionSort createdAtDesc
  { recipes := (sorted.drop skip.toNat).take limit.toNat
    page := page
    limit := limit
    total := total
    pages := jsCeilDiv total limit }

/-- The full `GET /api/recipes` response.  The handler receives the
`Authorization` header of the request but never reads it: listing is public. -/
def listRecipesResponse (st : Store) (pageQ limitQ : Option Int)
    (_authHeader : Option String) : Response :=
  let r := listRecipes st pageQ limitQ
  ⟨200, .recipeList r.recipes r.page r.limit r.total r.pages⟩

/-- Route `GET /api/recipes/:id` from `api/index.js` (lines 240–254); also takes
the (unread) `Authorization` header: reading is public. -/
def getRecipeById (st : Store) (id : String) (_authHeader : Option String) : Response :=
  if !isValidObjectId id then
    ⟨400, .err "Invalid recipe ID"⟩
  else
    match st.recipes.find? (fun r => r.id = id) with
    | none => ⟨404, .err "Recipe not found"⟩
    | some r => ⟨200, .recipeOne r⟩

/-- The JSON body of `POST /api/recipes`.  The handler destructures only
`title`, `ingredients`, `instructions`, `cookingTime` and `servings`; a
client-supplied `createdBy` is carried here so that we can prove it is
ignored. -/
structure CreateBody where
  title : String
  ingredients : Option (List String)
  instructions : String
  cookingTime : Option Int
  servings : Option Int
  createdBy : Option String
  deriving Repr, DecidableEq

/-- Route `POST /api/recipes` from `api/index.js` (lines 214–238): authenticate,
validate `title`/`instructions`, then save a recipe whose `createdBy` is
the `userId` of the claim. -/
def createRecipe (verify : String → Option Claim) (st : Store)
    (authHeader : Option String) (body : CreateBody)
    (newId : String) (now : Nat) : Response × Store :=
  match authenticateToken verify authHeader with
  | .error e => (authErrResponse e, st)
  | .ok user =>
    if body.title = "" || body.instructions = "" then
      (⟨400, .err "Title and instructions are required"⟩, st)
    else
      let r : Recipe :=
        { id := newId
          title := body.title
          ingredients := body.ingredients.getD []
          instructions := body.instructions
          cookingTime := body.cookingTime
          servings := body.servings
          createdBy := user.userId
          createdAt := now }
      (⟨201, .recipeCreated r⟩, { st with recipes := st.recipes ++ [r] })

/-- The JSON body of `PUT /api/recipes/:id`.  `findByIdAndUpdate(id,
req.body)` applies every schema field present in the body as a `$set`,
including `createdBy` and `createdAt`; `_id` is immutable. -/
structure UpdateBody where
  title : Option String
  ingredients : Option (List String)
  instructions : Option String
  cookingTime : Option Int
  servings : Option Int
  createdBy : Option String
  createdAt : Option Nat
  deriving Repr, DecidableEq

/-- The effect of `Recipe.findByIdAndUpdate(id, req.body)` on one record:
fields present in the body are set, the rest are unchanged. -/
def applyUpdate (r : Recipe) (b : UpdateBody) : Recipe :=
  { id := r.id
    title := b.title.getD r.title
    ingredients := b.ingredients.getD r.ingredients
    instructions := b.instructions.getD r.instructions
    cookingTime := match b.cookingTime with | none => r.cookingTime | some v => some v
    servings := match b.servings with | none => r.servings | some v => some v
    createdBy := b.createdBy.getD r.createdBy
    createdAt := b.createdAt.getD r.createdAt }

/-- Route `PUT /api/recipes/:id` from `api/index.js` (lines 256–280):
authenticate, check id format, fetch (404 if absent), check ownership
(403 if `createdBy ≠ userId`), then update with the raw request body. -/
def updateRecipe (verify : String → Option Claim) (st : Store)
    (authHeader : Option String) (id : String) (body : UpdateBody) : Response × Store :=
  match authenticateToken verify authHeader with
  | .error e => (authErrResponse e, st)
  | .ok user =>
    if !isValidObjectId id then
      (⟨400, .err "Invalid recipe ID"⟩, st)
    else
      match st.recipes.find? (fun r => r.id = id) with
      | none => (⟨404, .err "Recipe not found"⟩, st)
      | some r =>
        if r.createdBy ≠ user.userId then
          (⟨403, .err "Not authorized"⟩, st)
        else
          let updated := applyUpdate r body
          (⟨200, .recipeUpdated updated⟩,
           { st with recipes := st.recipes.map (fun x => if x.id = id then updated else x) })

/-- Route `DELETE /api/recipes/:id` from `api/index.js` (lines 282–305): same
gate sequence as update, then `findByIdAndDelete`. -/
def deleteRecipe (verify : String → Option Claim) (st : Store)
    (authHeader : Option String) (id : String) : Response × Store :=
  match authenticateToken verify authHeader with
  | .error e => (authErrResponse e, st)
  | .ok user =>
    if !isValidObjectId id then
      (⟨400, .err "Invalid recipe ID"⟩, st)
    else
      match st.recipes.find? (fun r => r.id = id) with
      | none => (⟨404, .err "Recipe not found"⟩, st)
      | some r =>
        if r.createdBy ≠ user.userId then
          (⟨403, .err "Not authorized"⟩, st)
        else
          (⟨200, .recipeDeleted⟩,
           { st with recipes := st.recipes.filter (fun x => !(x.id = id)) })

/-! ### Standalone serverless endpoint `api/auth-login.js`

This variant signs `{ id: user._id }` and, unlike the main handler,
reports an unknown username (`400 User not found`) differently from a
wrong password (`401 Invalid password`). -/

/-- Handler of `POST` in `api/auth-login.js` (lines 8–15). -/
def authLoginHandler (bhash : String → String) (signId : String → String)
    (st : Store) (username password : String) : Response :=
  match st.users.find? (fun u => u.username = username) with
  | none => ⟨400, .err "User not found"⟩
  | some u =>
    if u.password = bhash password then
      ⟨200, .token (signId u.id)⟩
    else
      ⟨401, .err "Invalid password"⟩

/-! ### Standalone serverless endpoint `api/recipes.js`

This variant requires a bearer token for `GET` and returns only the
recipes whose `createdBy` is the requester
(`Recipe.find({ createdBy: userId })`).  Its JWT claim carries the user
id in the `id` field, modelled by `verifyId : String → Option String`. -/

/-- Branch for `GET` of the `api/recipes.js` handler (lines 5–18). -/
def recipesApiGet (verifyId : String → Option String) (st : Store)
    (authHeader : Option String) : Response :=
  match extractBearer authHeader with
  | none => ⟨401, .err "Unauthorized"⟩
  | some t =>
    match verifyId t with
    | none => ⟨401, .err "Unauthorized"⟩
    | some userId => ⟨200, .recipesRaw (st.recipes.filter (fun r => r.createdBy = userId))⟩

/-! ### In-memory Express demo variant

State is a pair of process-global arrays `users` and `recipes`; user
records are `{ username, password }` with the password kept as submitted
(no hashing) and registration performs no password-strength check. -/

/-- A user record of the in-memory variant: `users.push({ username, password })`. -/
structure MemUser where
  username : String
  password : String
  deriving Repr, DecidableEq

/-- Route `POST /auth/register` of the in-memory variant: duplicate check only,
then the clear-text credentials are pushed and a token for the username is
returned. -/
def memRegister (genToken : String → String) (users : List MemUser)
    (username password : String) : Response × List MemUser :=
  match users.find? (fun u => u.username = username) with
  | some _ => (⟨400, .err "Username already exists"⟩, users)
  | none =>
    (⟨201, .token (genToken username)⟩, users ++ [⟨username, password⟩])

/-! ### Standalone serverless register endpoint

The standalone register handler hashes with bcrypt but performs no
password-length check: any non-empty password registers. -/

/-- Branch for `POST` of the standalone register handler. -/
def standaloneRegister (bhash : String → String) (st : Store)
    (username password : String) (newId : String) : Response × Store :=
  if username = "" || password = "" then
    (⟨400, .err "Missing fields"⟩, st)
  else
    match st.users.find? (fun u => u.username = username) with
    | some _ => (⟨400, .err "Username already exists"⟩, st)
    | none =>
      let u : User := ⟨newId, username, bhash password⟩
      (⟨200, .registeredMsg⟩, { st with users := st.users ++ [u] })

/-! ### Concrete fixtures

Concrete instantiations of the abstracted primitives and small concrete
stores, used by witnesses and counterexamples. -/

/-- A concrete stand-in for the salted bcrypt hash. -/
def hash0 : String → String := fun p => "$2b$12$" ++ p

/-- A concrete stand-in for `jwt.sign({userId, username})`. -/
def sign0 : String → String → String := fun uid uname => "jwt." ++ uid ++ "." ++ uname

/-- A concrete stand-in for `jwt.sign({id})` of `api/auth-login.js`. -/
def signId0 : String → String := fun uid => "jwt." ++ uid

/-- A concrete stand-in for `generateToken({username})` of the in-memory variant. -/
def genTok0 : String → String := fun uname => "jwt." ++ uname

/-- A concrete token verifier: `tokA` belongs to user `u1` (alice), `tokB`
to user `u2` (bob); everything else is invalid or expired. -/
def verify0 : String → Option Claim := fun t =>
  if t = "tokA" then some ⟨"u1", "alice"⟩
  else if t = "tokB" then some ⟨"u2", "bob"⟩
  else none

/-- A concrete verifier for the `api/recipes.js` claim shape (`id` field). -/
def verifyId0 : String → Option String := fun t =>
  if t = "tokA" then some "u1" else none

/-- A well-formed recipe id. -/
def idA : String := "aaaaaaaaaaaaaaaaaaaaaaaa"

/-- A second well-formed recipe id, distinct from `idA`. -/
def idB : String := "bbbbbbbbbbbbbbbbbbbbbbbb"

/-- A recipe created by user `u1`. -/
def recipeA : Recipe := ⟨idA, "Tea", ["water"], "Boil water", none, none, "u1", 1⟩

/-- A recipe created by user `u2`. -/
def recipeB : Recipe := ⟨idB, "Pie", [], "Bake", none, none, "u2", 2⟩

/-- The user alice with a hashed password. -/
def aliceUser : User := ⟨"u1", "alice", hash0 "secret1"⟩

/-- A store holding alice and her recipe. -/
def store0 : Store := ⟨[aliceUser], [recipeA]⟩

/-- A store holding recipes of two different users. -/
def storeTwo : Store := ⟨[aliceUser], [recipeA, recipeB]⟩

/-- An update body that touches nothing. -/
def emptyPatch : UpdateBody := ⟨none, none, none, none, none, none, none⟩

/-- An update body whose only field is a new `createdBy`. -/
def stealPatch : UpdateBody := ⟨none, none, none, none, none, some "u2", none⟩

/-- A store holding 25 recipes with distinct creation times. -/
def store25 : Store :=
  ⟨[], (List.range 25).map (fun i => ⟨"", "t", [], "cook", none, none, "u1", i⟩)⟩

/-! ### Claim theorems -/

/-- C1: on an existing recipe, an authenticated requester whose `userId`
differs from the `createdBy` of the recipe gets 403 (Forbidden, not
NotFound) from both update and delete; the owner proceeds (200). -/
theorem c1_ownership_gate (verify : String → Option Claim) (st : Store)
    (auth : Option String) (id : String) (body : UpdateBody) (c : Claim) (r : Recipe)
    (hauth : authenticateToken verify auth = .ok c)
    (hid : isValidObjectId id = true)
    (hfind : st.recipes.find? (fun x => x.id = id) = some r) :
    (r.createdBy ≠ c.userId →
      (updateRecipe verify st auth id body).1.status = 403 ∧
      (deleteRecipe verify st auth id).1.status = 403) ∧
    (r.createdBy = c.userId →
      (updateRecipe verify st auth id body).1.status = 200 ∧
      (deleteRecipe verify st auth id).1.status = 200) := by
  constructor <;> intro h <;>
    simp [updateRecipe, deleteRecipe, hauth, hid, hfind, h]

/-- Witness for C1: bob (token `tokB`) can neither update nor delete the
recipe of alice, and alice (token `tokA`) can do both. -/
theorem c1_witness :
    ((updateRecipe verify0 store0 (some "Bearer tokB") idA emptyPatch).1.status = 403 ∧
      (deleteRecipe verify0 store0 (some "Bearer tokB") idA).1.status = 403) ∧
    ((updateRecipe verify0 store0 (some "Bearer tokA") idA emptyPatch).1.status = 200 ∧
      (deleteRecipe verify0 store0 (some "Bearer tokA") idA).1.status = 200) :=
  ⟨(c1_ownership_gate verify0 store0 (some "Bearer tokB") idA emptyPatch
      ⟨"u2", "bob"⟩ recipeA (by decide) (by decide) (by decide)).1 (by decide),
   (c1_ownership_gate verify0 store0 (some "Bearer tokA") idA emptyPatch
      ⟨"u1", "alice"⟩ recipeA (by decide) (by decide) (by decide)).2 (by decide)⟩

/-- C2: when the target id is well-formed but names no stored recipe, both
update and delete answer exactly 404 Recipe not found with the store
untouched, for every authenticated requester — the response is a constant,
so it does not depend on which user makes the request, and the existence
check fires before the ownership check. -/
theorem c2_notfound_before_ownership (verify : String → Option Claim) (st : Store)
    (auth : Option String) (id : String) (body : UpdateBody) (c : Claim)
    (hauth : authenticateToken verify auth = .ok c)
    (hid : isValidObjectId id = true)
    (hnone : st.recipes.find? (fun x => x.id = id) = none) :
    updateRecipe verify st auth id body = (⟨404, .err "Recipe not found"⟩, st) ∧
    deleteRecipe verify st auth id = (⟨404, .err "Recipe not found"⟩, st) := by
  constructor <;> simp [updateRecipe, deleteRecipe, hauth, hid, hnone]

/-- Witness for C2: bob, who owns nothing, gets 404 (not 403) for the
absent id `idB`. -/
theorem c2_witness :
    updateRecipe verify0 store0 (some "Bearer tokB") idB emptyPatch =
      (⟨404, .err "Recipe not found"⟩, store0) ∧
    deleteRecipe verify0 store0 (some "Bearer tokB") idB =
      (⟨404, .err "Recipe not found"⟩, store0) :=
  c2_notfound_before_ownership verify0 store0 (some "Bearer tokB") idB emptyPatch
    ⟨"u2", "bob"⟩ (by decide) (by decide) (by decide)

/-- C4: when token authentication fails (missing, invalid or expired), every
bearer-protected operation of the main handler returns the 401 rejection
and the unchanged store, for every store, body and id — so the response is
independent of the Resource Store and no downstream handler logic runs. -/
theorem c4_auth_hard_gate (verify : String → Option Claim) (st : Store)
    (auth : Option String) (e : AuthErr) (cbody : CreateBody) (ubody : UpdateBody)
    (id newId : String) (now : Nat)
    (hfail : authenticateToken verify auth = .error e) :
    createRecipe verify st auth cbody newId now = (authErrResponse e, st) ∧
    updateRecipe verify st auth id ubody = (authErrResponse e, st) ∧
    deleteRecipe verify st auth id = (authErrResponse e, st) ∧
    (authErrResponse e).status = 401 := by
  refine ⟨?_, ?_, ?_, ?_⟩ <;>
    first
      | simp [createRecipe, updateRecipe, deleteRecipe, hfail]
      | cases e <;> rfl

/-- Witness for C4: a request with no Authorization header is rejected with
401 by create, update and delete, leaving the store as it was. -/
theorem c4_witness :
    createRecipe verify0 store0 none ⟨"T", none, "I", none, none, none⟩ idB 7 =
      (authErrResponse .missing, store0) ∧
    updateRecipe verify0 store0 none idA emptyPatch = (authErrResponse .missing, store0) ∧
    deleteRecipe verify0 store0 none idA = (authErrResponse .missing, store0) ∧
    (authErrResponse AuthErr.missing).status = 401 :=
  c4_auth_hard_gate verify0 store0 none .missing ⟨"T", none, "I", none, none, none⟩
    emptyPatch idA idB 7 (by decide)

/-- C10: whenever update or delete answers 404 or 403, the store component
of the result is exactly the input store — the error branches return
before any write. -/
theorem c10_error_preserves_store (verify : String → Option Claim) (st : Store)
    (auth : Option String) (id : String) (body : UpdateBody) :
    (((updateRecipe verify st auth id body).1.status = 404 ∨
        (updateRecipe verify st auth id body).1.status = 403) →
      (updateRecipe verify st auth id body).2 = st) ∧
    (((deleteRecipe verify st auth id).1.status = 404 ∨
        (deleteRecipe verify st auth id).1.status = 403) →
      (deleteRecipe verify st auth id).2 = st) := by
  constructor
  · rcases hA : authenticateToken verify auth with e | c
    · simp [updateRecipe, hA]
    · by_cases hid : isValidObjectId id
      · rcases hf : st.recipes.find? (fun x => x.id = id) with _ | r
        · simp [updateRecipe, hA, hid, hf]
        · by_cases hown : r.createdBy = c.userId
          · simp [updateRecipe, hA, hid, hf, hown]
          · simp [updateRecipe, hA, hid, hf, hown]
      · simp [updateRecipe, hA, hid]
  · rcases hA : authenticateToken verify auth with e | c
    · simp [deleteRecipe, hA]
    · by_cases hid : isValidObjectId id
      · rcases hf : st.recipes.find? (fun x => x.id = id) with _ | r
        · simp [deleteRecipe, hA, hid, hf]
        · by_cases hown : r.createdBy = c.userId
          · simp [deleteRecipe, hA, hid, hf, hown]
          · simp [deleteRecipe, hA, hid, hf, hown]
      · simp [deleteRecipe, hA, hid]

/-- Witness for C10: the 404 answered to bob for the absent id `idB` and
the 403 answered to bob for the recipe of alice both leave the store
unchanged. -/
theorem c10_witness :
    (updateRecipe verify0 store0 (some "Bearer tokB") idB emptyPatch).2 = store0 ∧
    (deleteRecipe verify0 store0 (some "Bearer tokB") idA).2 = store0 :=
  ⟨(c10_error_preserves_store verify0 store0 (some "Bearer tokB") idB emptyPatch).1
      (Or.inl (by decide)),
   (c10_error_preserves_store verify0 store0 (some "Bearer tokB") idA emptyPatch).2
      (Or.inr (by decide))⟩

/-- C3: the update path of the main handler passes the raw request body to
`findByIdAndUpdate`, so the owner alice (200) can change `createdBy` of
her recipe to `u2` — `createdBy` is not immutable, contradicting the
documented invariant.  Creation, in contrast, does ignore a
client-supplied `createdBy`: both recipes after the create below carry
`u1`, the authenticated identity, not the `u2` sent in the body. -/
theorem c3_createdBy_mutable_by_update :
    (updateRecipe verify0 store0 (some "Bearer tokA") idA stealPatch).1.status = 200 ∧
    (updateRecipe verify0 store0 (some "Bearer tokA") idA stealPatch).2.recipes.find?
        (fun r => r.id = idA) = some { recipeA with createdBy := "u2" } ∧
    recipeA.createdBy = "u1" ∧
    ((createRecipe verify0 store0 (some "Bearer tokA")
        ⟨"T", none, "I", none, none, some "u2"⟩ idB 7).2.recipes.map
          (fun r => r.createdBy)) = ["u1", "u1"] := by decide

/-- C5 counterexample: the standalone `api/recipes.js` listing endpoint is
not public — without a token it answers 401 Unauthorized, and with a
valid token of user `u1` it returns only the recipes of `u1`, omitting
the stored recipe of `u2`. -/
theorem c5_counterexample :
    recipesApiGet verifyId0 storeTwo none = ⟨401, .err "Unauthorized"⟩ ∧
    recipesApiGet verifyId0 storeTwo (some "Bearer tokA") = ⟨200, .recipesRaw [recipeA]⟩ ∧
    recipeB ∈ storeTwo.recipes ∧ recipeB ∉ [recipeA] := by decide

/-- C5 amended: in the main handler, listing and reading by id are public —
the response never depends on the Authorization header and a full page
covers a permutation of every stored recipe of every user; the standalone
`api/recipes.js` endpoint instead rejects tokenless requests with 401 and
returns only the recipes owned by the authenticated user. -/
theorem c5_amended_public_reads :
    (∀ st pq lq a1 a2, listRecipesResponse st pq lq a1 = listRecipesResponse st pq lq a2) ∧
    (∀ st id a1 a2, getRecipeById st id a1 = getRecipeById st id a2) ∧
    (∀ st : Store,
      (listRecipes st (some 1) (some (st.recipes.length : Int))).recipes.Perm st.recipes) ∧
    (∀ vid st, recipesApiGet vid st none = ⟨401, .err "Unauthorized"⟩) ∧
    (∀ (vid : String → Option String) (st : Store) (auth : Option String) (t uid : String),
      extractBearer auth = some t → vid t = some uid →
      recipesApiGet vid st auth =
        ⟨200, .recipesRaw (st.recipes.filter (fun r => r.createdBy = uid))⟩) := by
  refine ⟨fun _ _ _ _ _ => rfl, fun _ _ _ _ => rfl, ?_, fun _ _ => rfl, ?_⟩
  · intro st
    by_cases h : st.recipes.length = 0
    · rw [List.length_eq_zero] at h
      simp [listRecipes, queryOrDefault, h]
    · have hne : ((st.recipes.length : Int)) ≠ 0 := by exact_mod_cast h
      simp only [listRecipes, queryOrDefault, if_neg hne]
      norm_num
      rw [← List.length_insertionSort createdAtDesc st.recipes, List.take_length]
      exact List.perm_insertionSort _ _
  · intro vid st auth t uid h1 h2
    simp [recipesApiGet, h1, h2]

/-- Witness for C5 amended: with the valid token of `u1`, the standalone
endpoint answers exactly the owner-filtered listing. -/
theorem c5_amended_witness :
    recipesApiGet verifyId0 storeTwo (some "Bearer tokA") =
      ⟨200, .recipesRaw (storeTwo.recipes.filter (fun r => r.createdBy = "u1"))⟩ :=
  c5_amended_public_reads.2.2.2.2 verifyId0 storeTwo (some "Bearer tokA") "tokA" "u1"
    (by decide) (by decide)

/-- C6 counterexample: the standalone `api/auth-login.js` endpoint reports
an unknown username as 400 User not found but a wrong password for an
existing username as 401 Invalid password — the two failures are
distinguishable in both status and message. -/
theorem c6_counterexample :
    authLoginHandler hash0 signId0 store0 "bob" "whatever" = ⟨400, .err "User not found"⟩ ∧
    authLoginHandler hash0 signId0 store0 "alice" "wrongpw" = ⟨401, .err "Invalid password"⟩ ∧
    (⟨400, .err "User not found"⟩ : Response) ≠ ⟨401, .err "Invalid password"⟩ := by
  decide

/-- C6 amended: in the login route of the main handler, an unknown username
and a wrong password for an existing username both produce exactly
401 Invalid credentials, so the two cases are indistinguishable there. -/
theorem c6_amended_uniform_failure (bhash : String → String)
    (sign : String → String → String) (st : Store) (u1 p1 u2 p2 : String)
    (hu1 : u1 ≠ "") (hp1 : p1 ≠ "") (hu2 : u2 ≠ "") (hp2 : p2 ≠ "")
    (habsent : st.users.find? (fun u => u.username = u1) = none)
    (usr : User) (hfound : st.users.find? (fun u => u.username = u2) = some usr)
    (hwrong : usr.password ≠ bhash p2) :
    login bhash sign st u1 p1 = ⟨401, .err "Invalid credentials"⟩ ∧
    login bhash sign st u2 p2 = ⟨401, .err "Invalid credentials"⟩ := by
  constructor
  · simp [login, hu1, hp1, habsent]
  · simp [login, hu2, hp2, hfound, hwrong]

/-- Witness for C6 amended: unknown user bob and alice with a wrong
password receive the same 401 Invalid credentials from the main login. -/
theorem c6_amended_witness :
    login hash0 sign0 store0 "bob" "whatever" = ⟨401, .err "Invalid credentials"⟩ ∧
    login hash0 sign0 store0 "alice" "wrongpw" = ⟨401, .err "Invalid credentials"⟩ :=
  c6_amended_uniform_failure hash0 sign0 store0 "bob" "whatever" "alice" "wrongpw"
    (by decide) (by decide) (by decide) (by decide) (by decide) aliceUser
    (by decide) (by decide)

/-- C7 counterexample: the in-memory variant stores the submitted
clear-text password verbatim — after registering alice with secret1, the
stored record has password field equal to the submitted clear text. -/
theorem c7_counterexample :
    (memRegister genTok0 [] "alice" "secret1").1.status = 201 ∧
    (memRegister genTok0 [] "alice" "secret1").2 = [⟨"alice", "secret1"⟩] := by
  decide

/-- C7 amended: in the MongoDB-backed register handlers (main handler and
the standalone register endpoint), a successful registration appends a
record whose stored password field is the salted hash of the submitted
password — the clear text itself is not written. -/
theorem c7_amended_hash_stored (bhash : String → String) (st : Store)
    (username password newId : String)
    (hu : username ≠ "") (hp : password ≠ "") (hlen : ¬ password.length < 6)
    (hdup : st.users.find? (fun u => u.username = username) = none) :
    register bhash st username password newId =
      (⟨201, .registered newId⟩,
        { st with users := st.users ++ [⟨newId, username, bhash password⟩] }) ∧
    standaloneRegister bhash st username password newId =
      (⟨200, .registeredMsg⟩,
        { st with users := st.users ++ [⟨newId, username, bhash password⟩] }) := by
  constructor <;> simp [register, standaloneRegister, hu, hp, hlen, hdup]

/-- Witness for C7 amended: registering carol with the 7-character
password appends exactly the hashed record in both handlers. -/
theorem c7_amended_witness :
    register hash0 store0 "carol" "secret9" "u7" =
      (⟨201, .registered "u7"⟩,
        { store0 with users := store0.users ++ [⟨"u7", "carol", hash0 "secret9"⟩] }) ∧
    standaloneRegister hash0 store0 "carol" "secret9" "u7" =
      (⟨200, .registeredMsg⟩,
        { store0 with users := store0.users ++ [⟨"u7", "carol", hash0 "secret9"⟩] }) :=
  c7_amended_hash_stored hash0 store0 "carol" "secret9" "u7"
    (by decide) (by decide) (by decide) (by decide)

/-- C8: listings are sorted by creation time descending, page defaults to
1 and limit to 10, pages is the ceiling of total over limit, and with 25
stored recipes and limit 10 there are 3 pages, page 3 holds 5 items, and
total is 25. -/
theorem c8_list_pagination (st : Store) (pageQ limitQ : Option Int) :
    List.Sorted createdAtDesc (listRecipes st pageQ limitQ).recipes ∧
    (listRecipes st none limitQ).page = 1 ∧
    (listRecipes st pageQ none).limit = 10 ∧
    (listRecipes st pageQ limitQ).pages =
      jsCeilDiv (st.recipes.length) (queryOrDefault limitQ 10) ∧
    (st.recipes.length = 25 →
      (listRecipes st (some 3) (some 10)).pages = 3 ∧
      (listRecipes st (some 3) (some 10)).recipes.length = 5 ∧
      (listRecipes st (some 3) (some 10)).total = 25) := by
  refine ⟨?_, rfl, rfl, rfl, fun h => ⟨?_, ?_, ?_⟩⟩
  · simp only [listRecipes]
    exact List.Pairwise.sublist ((List.take_sublist _ _).trans (List.drop_sublist _ _))
      (List.sorted_insertionSort createdAtDesc _)
  · simp only [listRecipes, queryOrDefault, h]
    decide
  · simp only [listRecipes, queryOrDefault]
    rw [List.length_take, List.length_drop, List.length_insertionSort, h]
    decide
  · simp [listRecipes, h]

/-- Witness for C8: a concrete 25-recipe store paginates to 3 pages with 5
items on page 3 and total 25. -/
theorem c8_witness :
    (listRecipes store25 (some 3) (some 10)).pages = 3 ∧
    (listRecipes store25 (some 3) (some 10)).recipes.length = 5 ∧
    (listRecipes store25 (some 3) (some 10)).total = 25 :=
  (c8_list_pagination store25 (some 3) (some 10)).2.2.2.2 (by decide)

/-- C9 counterexample: the in-memory register accepts the 3-character
password abc with 201 and creates the user, instead of failing with a
weak-password error. -/
theorem c9_counterexample :
    (memRegister genTok0 [] "carol" "abc").1.status = 201 ∧
    (memRegister genTok0 [] "carol" "abc").2 = [⟨"carol", "abc"⟩] ∧
    "abc".length < 6 := by decide

/-- C9 amended: the main register rejects a password shorter than 6
characters with 400 and an unchanged store, while the in-memory variant
and the standalone register endpoint accept the same weak password. -/
theorem c9_amended_weak_password (bhash : String → String) (g : String → String)
    (st : Store) (users : List MemUser) (username password newId : String)
    (hu : username ≠ "") (hp : password ≠ "") (hlen : password.length < 6)
    (hdupm : users.find? (fun u => u.username = username) = none)
    (hdups : st.users.find? (fun u => u.username = username) = none) :
    register bhash st username password newId =
      (⟨400, .err "Password must be at least 6 characters"⟩, st) ∧
    (memRegister g users username password).1.status = 201 ∧
    (standaloneRegister bhash st username password newId).1.status = 200 := by
  refine ⟨?_, ?_, ?_⟩ <;>
    simp [register, memRegister, standaloneRegister, hu, hp, hlen, hdupm, hdups]

/-- Witness for C9 amended: the 3-character password abc is rejected by the
main register but accepted by the other two variants. -/
theorem c9_witness :
    register hash0 store0 "dave" "abc" "u9" =
      (⟨400, .err "Password must be at least 6 characters"⟩, store0) ∧
    (memRegister genTok0 [] "dave" "abc").1.status = 201 ∧
    (standaloneRegister hash0 store0 "dave" "abc" "u9").1.status = 200 :=
  c9_amended_weak_password hash0 genTok0 store0 [] "dave" "abc" "u9"
    (by decide) (by decide) (by decide) (by decide) (by decide)

end RecipeApi
